import Mathlib

/-!
Verification development for the AI Debate Arena repository.

The definitions below are a shallow embedding of the Python sources:
models.py (pydantic data model), agents.py (generation helpers with
fallbacks) and debate_engine_v2.py (the MultiDebateEngine orchestrator).

Conventions of the embedding:
- pydantic model construction is embedded as a validating smart
  constructor returning Except String; a value of the structure type
  corresponds to a successfully validated pydantic instance.
- Scores and thresholds (floats in [0,1] in the source) are embedded as
  rationals; every comparison the code performs is exact at the values
  involved.
- Calls to the LLM collaborators (pydantic_ai agents) are embedded as an
  Oracle of functions returning Option: none models the agent call
  raising, some a models it returning the validated output a.
- random.choice and random.random are embedded as oracle streams indexed
  by a counter threaded through the engine state.
- asyncio.sleep pauses and logging are no-ops and are omitted.
- The engine state (DebateState plus the event broadcasts and the list of
  phase assignments) is threaded through ExceptT String (StateM EngSt):
  a raised exception aborts the remaining computation while keeping all
  state mutations made so far, which matches Python semantics.
-/

namespace DebateArena

/-- Embeds models.DebaterPosition (models.py). -/
structure DebaterPosition where
  name : String
  stance : String
  key_beliefs : List String
deriving DecidableEq

/-- Embeds models.Debater (models.py). -/
structure Debater where
  id : String
  name : String
  position : DebaterPosition
  personality : String
  argument_style : String
  voice_id : Nat
  avatar_emoji : String
deriving DecidableEq

/-- Embeds the Literal strictness values of models.DebateConfig. -/
inductive Strictness where
  | relaxed
  | moderate
  | strict
deriving DecidableEq

/-- Embeds models.DebateConfig (models.py), fields only; validation is in
DebateConfig.make. -/
structure DebateConfig where
  topic : String
  description : Option String
  debaters : List Debater
  max_rounds : Nat
  turn_time_seconds : Nat
  allow_rebuttals : Bool
  moderator_strictness : Strictness
deriving DecidableEq

/-- Embeds pydantic validation of models.DebateConfig: the field
constraints are min_length 2 and max_length 6 on debaters, 1 to 10 on
max_rounds and 15 to 180 on turn_time_seconds.  The source declares no
validator relating the ids of distinct debaters. -/
def DebateConfig.make (topic : String) (description : Option String)
    (debaters : List Debater) (max_rounds : Nat) (turn_time_seconds : Nat)
    (allow_rebuttals : Bool) (moderator_strictness : Strictness) :
    Except String DebateConfig :=
  if debaters.length < 2 then
    .error "debaters: List should have at least 2 items"
  else if 6 < debaters.length then
    .error "debaters: List should have at most 6 items"
  else if max_rounds < 1 then
    .error "max_rounds: Input should be greater than or equal to 1"
  else if 10 < max_rounds then
    .error "max_rounds: Input should be less than or equal to 10"
  else if turn_time_seconds < 15 then
    .error "turn_time_seconds: Input should be greater than or equal to 15"
  else if 180 < turn_time_seconds then
    .error "turn_time_seconds: Input should be less than or equal to 180"
  else
    .ok ⟨topic, description, debaters, max_rounds, turn_time_seconds,
      allow_rebuttals, moderator_strictness⟩

/-- Embeds models.DebateArgument (models.py). -/
structure DebateArgument where
  main_claim : String
  supporting_points : List String
  rebuttal_to : Option String
  rhetorical_strategy : String
  confidence_level : Rat
deriving DecidableEq

/-- Embeds models.DebateArgument.to_speech_text. -/
def DebateArgument.to_speech_text (a : DebateArgument) : String :=
  if a.supporting_points.isEmpty then a.main_claim
  else a.main_claim ++ " " ++ String.intercalate " " (a.supporting_points.take 2)

/-- Embeds the Literal action_type values of models.ModeratorAction. -/
inductive ModActionType where
  | introduce
  | transition
  | redirect
  | summarize
  | conclude
deriving DecidableEq

/-- The five strings accepted by the action_type Literal of
models.ModeratorAction. -/
def validActionTypes : List String :=
  ["introduce", "transition", "redirect", "summarize", "conclude"]

/-- The pydantic validation error message produced for an action_type
outside the Literal. -/
def actionTypeError (s : String) : String :=
  "action_type: Input should be one of the literal values, got " ++ s

/-- Embeds the Literal check pydantic performs on
models.ModeratorAction.action_type. -/
def parseActionType (s : String) : Except String ModActionType :=
  if s = "introduce" then .ok .introduce
  else if s = "transition" then .ok .transition
  else if s = "redirect" then .ok .redirect
  else if s = "summarize" then .ok .summarize
  else if s = "conclude" then .ok .conclude
  else .error (actionTypeError s)

/-- Embeds models.ModeratorAction (models.py); a value of this type is a
successfully validated instance. -/
structure ModeratorAction where
  action_type : ModActionType
  message : String
  addressed_to : Option String
  off_topic_warning : Bool
  topic_reminder : Option String
deriving DecidableEq

/-- Embeds constructing models.ModeratorAction from a raw action_type
string, as every ModeratorAction(...) call in the engine does: pydantic
validates the Literal and raises on any other string. -/
def ModeratorAction.make (action_type : String) (message : String)
    (addressed_to : Option String) (off_topic_warning : Bool)
    (topic_reminder : Option String) : Except String ModeratorAction :=
  match parseActionType action_type with
  | .ok t => .ok ⟨t, message, addressed_to, off_topic_warning, topic_reminder⟩
  | .error e => .error e

/-- Embeds models.TopicRelevanceCheck (models.py). -/
structure TopicRelevanceCheck where
  is_relevant : Bool
  relevance_score : Rat
  off_topic_elements : List String
  suggested_redirect : Option String
deriving DecidableEq

/-- Embeds models.DebateTurnResult (models.py); timestamp is a logical
clock instead of wall time. -/
structure DebateTurnResult where
  debater_id : String
  debater_name : String
  position_name : String
  argument : DebateArgument
  timestamp : Nat
  round_number : Nat
  turn_in_round : Nat
  audio_generated : Bool
  relevance_check : Option TopicRelevanceCheck
deriving DecidableEq

/-- Returns true when an Except value is ok. -/
def exOk {α : Type} : Except String α → Bool
  | .ok _ => true
  | .error _ => false

/-- Embeds agents.ModeratorContext (agents.py). -/
structure ModeratorContext where
  topic : String
  topic_description : Option String
  debaters : List Debater
  recent_turns : List DebateTurnResult
  current_phase : String
  strictness : Strictness
  last_argument : Option DebateArgument
  last_speaker : Option String

/-- Embeds the external collaborators and sources of nondeterminism.  A
field returning none models the corresponding pydantic_ai agent call
raising an exception; some a models a successful, already validated
output a.  randIndex and randFollowup are streams indexed by the number
of random draws made so far; tts models the optional speech synthesizer
(none when unavailable or failing, which the source treats as normal). -/
structure Oracle where
  argumentLLM : Debater → Nat → Option DebateArgument
  openingLLM : Debater → Option DebateArgument
  closingLLM : Debater → Option DebateArgument
  moderationLLM : String → Option ModeratorAction
  relevanceLLM : DebateArgument → Option TopicRelevanceCheck
  randIndex : Nat → Nat → Nat
  randFollowup : Nat → Bool
  tts : String → Nat → Option (List Nat)

/-- Embeds the fallback DebateArgument built in agents.generate_argument
when the debater agent raises (agents.py lines 184-190). -/
def fallbackArgument (debater : Debater) : DebateArgument :=
  { main_claim := "From the " ++ debater.position.name ++ " perspective, "
      ++ debater.position.stance
    supporting_points := debater.position.key_beliefs.take 2
    rebuttal_to := none
    rhetorical_strategy := "logical"
    confidence_level := 0.7 }

/-- Embeds agents.generate_argument: run the debater agent and return its
output, or the deterministic fallback when the call raises.  The context
arguments only feed the prompt and do not affect the control flow. -/
def generate_argument (o : Oracle) (debater : Debater)
    (_debate_config : DebateConfig) (_recent_arguments : List DebateTurnResult)
    (current_round : Nat) (_is_rebuttal : Bool) (_target_debater : Option String) :
    DebateArgument :=
  match o.argumentLLM debater current_round with
  | some a => a
  | none => fallbackArgument debater

/-- Embeds the fallback opening statement in agents.generate_opening. -/
def fallbackOpening (debater : Debater) : DebateArgument :=
  { main_claim := "I stand here today to argue from the "
      ++ debater.position.name ++ " position. " ++ debater.position.stance
    supporting_points := debater.position.key_beliefs.take 2
    rebuttal_to := none
    rhetorical_strategy := "opening"
    confidence_level := 0.9 }

/-- Embeds agents.generate_opening. -/
def generate_opening (o : Oracle) (debater : Debater)
    (_debate_config : DebateConfig) : DebateArgument :=
  match o.openingLLM debater with
  | some a => a
  | none => fallbackOpening debater

/-- Embeds the fallback closing statement in agents.generate_closing. -/
def fallbackClosing (debater : Debater) : DebateArgument :=
  { main_claim := "In conclusion, the " ++ debater.position.name
      ++ " position offers the strongest case. " ++ debater.position.stance
    supporting_points := ["The evidence clearly supports this view."]
    rebuttal_to := none
    rhetorical_strategy := "closing"
    confidence_level := 0.9 }

/-- Embeds agents.generate_closing; the history only feeds the prompt
(the source filters it to this debater before building the context). -/
def generate_closing (o : Oracle) (debater : Debater)
    (_debate_config : DebateConfig) (debate_history : List DebateTurnResult) :
    DebateArgument :=
  let _my_arguments := debate_history.filter (fun t => t.debater_id == debater.id)
  match o.closingLLM debater with
  | some a => a
  | none => fallbackClosing debater

/-- Embeds agents.generate_moderation: run the moderator agent, or on
failure construct the fallback ModeratorAction with the requested action
kind, which itself passes through pydantic validation. -/
def generate_moderation (o : Oracle) (context : ModeratorContext)
    (action_needed : String) : Except String ModeratorAction :=
  match o.moderationLLM action_needed with
  | some a => .ok a
  | none =>
    ModeratorAction.make action_needed
      ("Let\x27s continue our discussion on " ++ context.topic ++ ".")
      none false none

/-- Embeds the strictness-to-threshold dict built at agents.py line 284.
The source computes this value inside check_topic_relevance and never
uses it: neither the returned TopicRelevanceCheck nor the engine consults
it. -/
def strictnessThreshold : Strictness → Rat
  | .relaxed => 0.3
  | .moderate => 0.5
  | .strict => 0.7

/-- Embeds the fail-open TopicRelevanceCheck built in
agents.check_topic_relevance when the relevance agent raises. -/
def relevanceFallback : TopicRelevanceCheck :=
  { is_relevant := true
    relevance_score := 0.8
    off_topic_elements := []
    suggested_redirect := none }

/-- Embeds agents.check_topic_relevance.  The let mirrors the threshold
computed and then ignored by the source. -/
def check_topic_relevance (o : Oracle) (argument : DebateArgument)
    (_topic : String) (_topic_description : Option String)
    (strictness : Strictness) : TopicRelevanceCheck :=
  let _threshold := strictnessThreshold strictness
  match o.relevanceLLM argument with
  | some r => r
  | none => relevanceFallback

/-- Embeds the events MultiDebateEngine._notify broadcasts (the payload
dicts built at each call site of _notify in debate_engine_v2.py). -/
inductive DebateEvent where
  | turn_completed (debater_id : String) (debater_name : String)
      (position_name : String) (statement : String) (round : Nat)
      (phase : String) (has_audio : Bool)
  | moderator_action (action_type : ModActionType) (message : String)
      (addressed_to : Option String) (off_topic_warning : Bool)
      (has_audio : Bool)
  | speaker_change (speaker : String) (position : String)
      (phase : Option String) (round : Option Nat)
  | round_start (round : Nat) (total_rounds : Nat)
  | phase_change (phase : String)
  | debate_error (error : String)
  | debate_ended (total_turns : Nat) (rounds_completed : Nat)
deriving DecidableEq

/-- Embeds the mutable state of one MultiDebateEngine: the DebateState
fields the engine mutates, the ordered log of broadcast events, a logical
clock standing in for time.time(), a counter into the random streams,
and the ordered list of every value assigned to state.phase (the initial
value followed by each assignment, used to reason about the phase
transition path). -/
structure EngSt where
  phase : String
  phaseTrace : List String
  current_round : Nat
  current_speaker_index : Nat
  turns : List DebateTurnResult
  is_active : Bool
  events : List DebateEvent
  clock : Nat
  rand_counter : Nat
deriving DecidableEq

/-- The engine monad: Python exceptions abort the rest of the computation
while keeping all state mutations made before the raise. -/
abbrev EngM := ExceptT String (StateM EngSt)

/-- Lifts a validated-or-raising construction into the engine monad. -/
def liftExcept {α : Type} : Except String α → EngM α
  | .ok a => pure a
  | .error e => throw e

/-- Embeds an assignment to self.state.phase, recording it in the trace. -/
def setPhase (p : String) : EngM Unit :=
  modify fun st => { st with phase := p, phaseTrace := st.phaseTrace ++ [p] }

/-- Embeds MultiDebateEngine._notify as appending to the broadcast log;
the per-listener fan-out of one event is embedded by notifyAll below. -/
def notify (e : DebateEvent) : EngM Unit :=
  modify fun st => { st with events := st.events ++ [e] }

/-- Draws the next position in the random streams. -/
def nextRand : EngM Nat := do
  let st ← get
  set { st with rand_counter := st.rand_counter + 1 }
  pure st.rand_counter

/-- Embeds random.choice over a message list, using the oracle stream. -/
def randChoice (o : Oracle) (msgs : List String) : EngM String := do
  let k ← nextRand
  pure (msgs.getD (o.randIndex k msgs.length % msgs.length) "")

/-- Embeds MultiDebateEngine._generate_speech: the synthesizer collaborator
returns audio bytes or nothing; failures are caught and become nothing. -/
def generateSpeech (o : Oracle) (text : String) (voice_id : Nat) :
    Option (List Nat) :=
  o.tts text voice_id

/-- Embeds MultiDebateEngine._create_turn: synthesize speech, build the
DebateTurnResult, append it to state.turns and notify turn_completed. -/
def createTurn (o : Oracle) (debater : Debater) (argument : DebateArgument)
    (round_number : Nat) (turn_in_round : Nat)
    (relevance_check : Option TopicRelevanceCheck) : EngM DebateTurnResult := do
  let speech_text := argument.to_speech_text
  let audio_data := generateSpeech o speech_text debater.voice_id
  let st ← get
  let turn : DebateTurnResult :=
    { debater_id := debater.id
      debater_name := debater.name
      position_name := debater.position.name
      argument := argument
      timestamp := st.clock
      round_number := round_number
      turn_in_round := turn_in_round
      audio_generated := audio_data.isSome
      relevance_check := relevance_check }
  set { st with turns := st.turns ++ [turn], clock := st.clock + 1 }
  notify (.turn_completed debater.id debater.name debater.position.name
    argument.main_claim round_number st.phase turn.audio_generated)
  pure turn

/-- Embeds MultiDebateEngine._moderator_speak (the pause after speaking
is a no-op here). -/
def moderatorSpeak (o : Oracle) (action : ModeratorAction) : EngM Unit := do
  let audio_data := generateSpeech o action.message 3
  notify (.moderator_action action.action_type action.message
    action.addressed_to action.off_topic_warning audio_data.isSome)

/-- Embeds the "opening" message list of MultiDebateEngine._introduce_speaker. -/
def openingIntroMessages (debater : Debater) : List String :=
  [ debater.name ++ ", representing the " ++ debater.position.name
      ++ " position, please share your opening statement.",
    "Let\x27s hear from " ++ debater.name ++ ", who will argue from the "
      ++ debater.position.name ++ " perspective.",
    debater.name ++ ", you have the floor for your opening remarks." ]

/-- Embeds the "debate" message list of MultiDebateEngine._introduce_speaker. -/
def debateIntroMessages (debater : Debater) : List String :=
  [ debater.name ++ ", your thoughts?",
    "Let\x27s hear from " ++ debater.name ++ ".",
    debater.name ++ ", please continue the discussion.",
    "We now turn to " ++ debater.name ++ " for their perspective." ]

/-- Embeds the "rebuttal" message list of MultiDebateEngine._introduce_speaker. -/
def rebuttalIntroMessages (debater : Debater) : List String :=
  [ debater.name ++ ", you may now respond to the previous arguments.",
    debater.name ++ ", your rebuttal please.",
    "Let\x27s hear " ++ debater.name ++ "\x27s response." ]

/-- Embeds the "closing" message list of MultiDebateEngine._introduce_speaker. -/
def closingIntroMessages (debater : Debater) : List String :=
  [ debater.name ++ ", please deliver your closing statement.",
    "For closing remarks, " ++ debater.name ++ ".",
    debater.name ++ ", your final thoughts." ]

/-- Embeds the intros dict lookup with its fallback to the "debate" list. -/
def introMessages (debater : Debater) (context : String) : List String :=
  if context = "opening" then openingIntroMessages debater
  else if context = "debate" then debateIntroMessages debater
  else if context = "rebuttal" then rebuttalIntroMessages debater
  else if context = "closing" then closingIntroMessages debater
  else debateIntroMessages debater

/-- Embeds MultiDebateEngine._introduce_speaker: choose a message, then
construct a ModeratorAction with action_type "introduce_speaker" (which
pydantic validation rejects) and have the moderator speak it. -/
def introduceSpeaker (o : Oracle) (debater : Debater) (context : String) :
    EngM Unit := do
  let msgs := introMessages debater context
  let message ← randChoice o msgs
  let action ← liftExcept
    (ModeratorAction.make "introduce_speaker" message (some debater.name)
      false none)
  moderatorSpeak o action

/-- Embeds the follow-up message list of MultiDebateEngine._maybe_ask_followup. -/
def followupMessages (debater : Debater) : List String :=
  [ debater.name ++ ", can you elaborate on that point?",
    "Interesting. " ++ debater.name
      ++ ", how would you respond to potential counterarguments?",
    debater.name ++ ", what evidence supports your position?",
    "Could you clarify that for our audience, " ++ debater.name ++ "?",
    debater.name ++ ", how does this relate to what was said earlier?" ]

/-- Embeds MultiDebateEngine._maybe_ask_followup: with probability 0.3
(randFollowup true) ask a follow-up, constructing a ModeratorAction with
action_type "followup". -/
def maybeAskFollowup (o : Oracle) (debater : Debater)
    (_argument : DebateArgument) : EngM Bool := do
  let k ← nextRand
  if !(o.randFollowup k) then
    pure false
  else do
    let message ← randChoice o (followupMessages debater)
    let action ← liftExcept
      (ModeratorAction.make "followup" message (some debater.name) false none)
    moderatorSpeak o action
    pure true

/-- Embeds the summaries message list of MultiDebateEngine._round_summary. -/
def roundSummaryMessages : List String :=
  [ "We\x27ve heard compelling arguments from all sides. ",
    "That concludes round placeholder. ",
    "Excellent exchange of ideas. " ]

/-- Embeds the transitions message list of MultiDebateEngine._round_summary. -/
def roundTransitionMessages (round_num : Nat) : List String :=
  [ "Let\x27s move on to round " ++ toString (round_num + 1) ++ ".",
    "We\x27ll continue with round " ++ toString (round_num + 1)
      ++ " where our speakers can respond to these points.",
    "Round " ++ toString (round_num + 1)
      ++ " will give our debaters a chance to address what\x27s been said." ]

/-- Embeds MultiDebateEngine._round_summary: when at least two turns exist
and the round produced turns, construct a ModeratorAction with
action_type "round_summary". -/
def roundSummary (o : Oracle) (round_num : Nat) : EngM Unit := do
  let st ← get
  if st.turns.length < 2 then
    pure ()
  else
    let round_turns := st.turns.filter (fun t => t.round_number == round_num)
    if round_turns.isEmpty then
      pure ()
    else do
      let s ← randChoice o roundSummaryMessages
      let tr ← randChoice o (roundTransitionMessages round_num)
      let action ← liftExcept
        (ModeratorAction.make "round_summary" (s ++ tr) none false none)
      moderatorSpeak o action

/-- Embeds MultiDebateEngine._get_previous_speaker_name. -/
def getPreviousSpeakerName (cfg : DebateConfig)
    (turns : List DebateTurnResult) (current_index : Nat) : Option String :=
  if current_index > 0 then
    (cfg.debaters.get? (current_index - 1)).map (fun d => d.name)
  else
    match turns.getLast? with
    | some t => some t.debater_name
    | none => none

/-- Embeds the off-topic test at debate_engine_v2.py line 504: the engine
intervenes when the check marks the turn irrelevant or its score is below
the hard-coded 0.5, for every strictness setting. -/
def needsRedirect (relevance : TopicRelevanceCheck) : Bool :=
  !relevance.is_relevant || decide (relevance.relevance_score < 0.5)

/-- Redirect rule as the specification words it, for comparison with
needsRedirect: intervene when the check marks the turn irrelevant or its
score is below the strictness-dependent threshold. -/
def specRedirectRule (strictness : Strictness)
    (relevance : TopicRelevanceCheck) : Bool :=
  !relevance.is_relevant
    || decide (relevance.relevance_score < strictnessThreshold strictness)

/-- Embeds MultiDebateEngine._handle_off_topic. -/
def handleOffTopic (o : Oracle) (cfg : DebateConfig) (debater : Debater)
    (_relevance : TopicRelevanceCheck) : EngM Unit := do
  let st ← get
  let mod_context : ModeratorContext :=
    { topic := cfg.topic
      topic_description := cfg.description
      debaters := cfg.debaters
      recent_turns := st.turns.drop (st.turns.length - 3)
      current_phase := st.phase
      strictness := cfg.moderator_strictness
      last_argument := none
      last_speaker := some debater.name }
  let redirect ← liftExcept (generate_moderation o mod_context "redirect")
  let redirect :=
    { redirect with
        addressed_to := some debater.name
        off_topic_warning := true
        topic_reminder := some ("Please stay focused on: " ++ cfg.topic) }
  moderatorSpeak o redirect

/-- Embeds MultiDebateEngine._introduction_phase. -/
def introductionPhase (o : Oracle) (cfg : DebateConfig) : EngM Unit := do
  setPhase "introduction"
  let debater_intros := String.intercalate ", "
    (cfg.debaters.map fun d =>
      d.name ++ " representing the " ++ d.position.name ++ " position")
  let mod_context : ModeratorContext :=
    { topic := cfg.topic
      topic_description := cfg.description
      debaters := cfg.debaters
      recent_turns := []
      current_phase := "introduction"
      strictness := cfg.moderator_strictness
      last_argument := none
      last_speaker := none }
  let intro_action ← liftExcept (generate_moderation o mod_context "introduce")
  let intro_action :=
    { intro_action with
        message := "Welcome to today\x27s debate on: " ++ cfg.topic
          ++ ". We have " ++ toString cfg.debaters.length
          ++ " distinguished speakers: " ++ debater_intros
          ++ ". Let\x27s begin with opening statements." }
  moderatorSpeak o intro_action

/-- Embeds MultiDebateEngine._opening_statements_phase. -/
def openingStatementsPhase (o : Oracle) (cfg : DebateConfig) : EngM Unit := do
  setPhase "opening"
  cfg.debaters.enum.forM fun p => do
    let i := p.fst
    let debater := p.snd
    introduceSpeaker o debater "opening"
    notify (.speaker_change debater.name debater.position.name
      (some "opening") none)
    let argument := generate_opening o debater cfg
    let _ ← createTurn o debater argument 0 i none
    pure ()

/-- Embeds MultiDebateEngine._main_debate_phase. -/
def mainDebatePhase (o : Oracle) (cfg : DebateConfig) : EngM Unit := do
  setPhase "debate"
  (List.range' 1 cfg.max_rounds).forM fun round_num => do
    modify fun st => { st with current_round := round_num }
    notify (.round_start round_num cfg.max_rounds)
    let intro_msg :=
      if round_num = 1 then
        "We now begin our main debate. This is round " ++ toString round_num
          ++ " of " ++ toString cfg.max_rounds
          ++ ". Each speaker will have the opportunity to present their arguments."
      else
        "Round " ++ toString round_num ++ " of " ++ toString cfg.max_rounds
          ++ ". Speakers may now respond to previous arguments."
    let round_intro ← liftExcept
      (ModeratorAction.make "round_intro" intro_msg none false none)
    moderatorSpeak o round_intro
    cfg.debaters.enum.forM fun p => do
      let i := p.fst
      let debater := p.snd
      modify fun st => { st with current_speaker_index := i }
      introduceSpeaker o debater "debate"
      notify (.speaker_change debater.name debater.position.name
        none (some round_num))
      let st ← get
      let argument := generate_argument o debater cfg st.turns round_num
        (round_num > 1) (getPreviousSpeakerName cfg st.turns i)
      let relevance := check_topic_relevance o argument cfg.topic
        cfg.description cfg.moderator_strictness
      let _ ← createTurn o debater argument round_num i (some relevance)
      if needsRedirect relevance then
        handleOffTopic o cfg debater relevance
      let _ ← maybeAskFollowup o debater argument
      pure ()
    if round_num < cfg.max_rounds then
      roundSummary o round_num

/-- Embeds the rebuttal reverse speaking order of
MultiDebateEngine._rebuttal_phase. -/
def rebuttalOrder (cfg : DebateConfig) : List Debater :=
  cfg.debaters.reverse

/-- Embeds the rebuttal target computation of
MultiDebateEngine._rebuttal_phase: the speaker at reversed position i
targets the debater at original index length - i - 2, or nobody when
that index is negative. -/
def rebuttalTarget (cfg : DebateConfig) (i : Nat) : Option String :=
  let target_index : Int := (cfg.debaters.length : Int) - (i : Int) - 2
  if 0 ≤ target_index then
    (cfg.debaters.get? target_index.toNat).map (fun d => d.name)
  else
    none

/-- Embeds MultiDebateEngine._rebuttal_phase. -/
def rebuttalPhase (o : Oracle) (cfg : DebateConfig) : EngM Unit := do
  setPhase "rebuttals"
  notify (.phase_change "rebuttals")
  let mod_action ← liftExcept (ModeratorAction.make "transition"
    "We now enter the rebuttal phase. Each speaker will have a chance to directly address the arguments made by others."
    none false none)
  moderatorSpeak o mod_action
  (rebuttalOrder cfg).enum.forM fun p => do
    let i := p.fst
    let debater := p.snd
    let target_debater := rebuttalTarget cfg i
    introduceSpeaker o debater "rebuttal"
    notify (.speaker_change debater.name debater.position.name
      (some "rebuttal") none)
    let st ← get
    let argument := generate_argument o debater cfg st.turns
      (cfg.max_rounds + 1) true target_debater
    let _ ← createTurn o debater argument (cfg.max_rounds + 1) i none
    pure ()

/-- Embeds MultiDebateEngine._closing_statements_phase. -/
def closingStatementsPhase (o : Oracle) (cfg : DebateConfig) : EngM Unit := do
  setPhase "closing"
  let mod_action ← liftExcept (ModeratorAction.make "transition"
    "We now move to closing statements. Each speaker will have the opportunity to summarize their position and leave us with their final thoughts."
    none false none)
  moderatorSpeak o mod_action
  cfg.debaters.enum.forM fun p => do
    let i := p.fst
    let debater := p.snd
    introduceSpeaker o debater "closing"
    notify (.speaker_change debater.name debater.position.name
      (some "closing") none)
    let st ← get
    let argument := generate_closing o debater cfg st.turns
    let _ ← createTurn o debater argument (cfg.max_rounds + 2) i none
    pure ()

/-- Embeds MultiDebateEngine._conclusion_phase. -/
def conclusionPhase (o : Oracle) (cfg : DebateConfig) : EngM Unit := do
  setPhase "conclusion"
  let positions_summary := String.intercalate ", "
    (cfg.debaters.map fun d =>
      "the " ++ d.position.name ++ " view from " ++ d.name)
  let mod_action ← liftExcept (ModeratorAction.make "conclude"
    ("Thank you to all our speakers for this thought-provoking debate on "
      ++ cfg.topic ++ ". We\x27ve heard compelling arguments from "
      ++ positions_summary
      ++ ". We leave it to our audience to reflect on these perspectives.")
    none false none)
  moderatorSpeak o mod_action

/-- The engine state as the MultiDebateEngine constructor builds it. -/
def initialState : EngSt :=
  { phase := "not_started"
    phaseTrace := ["not_started"]
    current_round := 0
    current_speaker_index := 0
    turns := []
    is_active := false
    events := []
    clock := 0
    rand_counter := 0 }

/-- The body of the try block in MultiDebateEngine.run_debate. -/
def debateBody (o : Oracle) (cfg : DebateConfig) : EngM Unit := do
  introductionPhase o cfg
  openingStatementsPhase o cfg
  mainDebatePhase o cfg
  if cfg.allow_rebuttals then
    rebuttalPhase o cfg
  closingStatementsPhase o cfg
  conclusionPhase o cfg

/-- Embeds MultiDebateEngine.run_debate starting from a given state: mark
active, set phase introduction, run the phase sequence, on any exception
notify debate_error, and in the finally block mark inactive, set phase
finished and notify debate_ended. -/
def runDebateFrom (o : Oracle) (cfg : DebateConfig) (st0 : EngSt) : EngSt :=
  let st1 := { st0 with
    is_active := true
    phase := "introduction"
    phaseTrace := st0.phaseTrace ++ ["introduction"] }
  let result := ((debateBody o cfg).run).run st1
  let st2 := result.snd
  let st3 :=
    match result.fst with
    | .ok _ => st2
    | .error e => { st2 with events := st2.events ++ [DebateEvent.debate_error e] }
  let st4 := { st3 with
    is_active := false
    phase := "finished"
    phaseTrace := st3.phaseTrace ++ ["finished"] }
  { st4 with
    events := st4.events
      ++ [DebateEvent.debate_ended st4.turns.length st4.current_round] }

/-- Embeds a full MultiDebateEngine.run_debate on a fresh engine. -/
def runDebate (o : Oracle) (cfg : DebateConfig) : EngSt :=
  runDebateFrom o cfg initialState

/-- Embeds MultiDebateEngine.add_listener: append the callback. -/
def addListener {α : Type} (listeners : List α) (callback : α) : List α :=
  listeners ++ [callback]

/-- Embeds MultiDebateEngine.remove_listener: when the callback is
present, remove its first occurrence (Python list.remove). -/
def removeListener {α : Type} [DecidableEq α] (listeners : List α)
    (callback : α) : List α :=
  if callback ∈ listeners then listeners.erase callback else listeners

/-- Projects the outcome of one listener invocation to the error the
engine would log, if any. -/
def errOf : Except String Unit → Option String
  | .ok _ => none
  | .error e => some e

/-- Embeds the fan-out loop of MultiDebateEngine._notify over one event:
each listener (synchronous or asynchronous, both invoked the same way
here) is called in order; a raise is caught and logged as the outcome for
that listener and the loop continues.  The result records, in order, each
listener together with the error logged for it, and the function itself
never fails. -/
def notifyAll {α : Type} (invoke : α → DebateEvent → Except String Unit)
    (event : DebateEvent) : List α → List (α × Option String)
  | [] => []
  | l :: rest =>
    (match invoke l event with
      | .ok _ => (l, none)
      | .error e => (l, some e)) :: notifyAll invoke event rest

/-- A listener invocation that always succeeds, for concrete instances. -/
def okInvoke : Nat → DebateEvent → Except String Unit :=
  fun _ _ => .ok ()

/-- The oracle in which every collaborator call raises: the scenario in
which the generator, moderation and relevance agents always fail.  The
random streams always pick index 0 and never fire the follow-up. -/
def failingOracle : Oracle :=
  { argumentLLM := fun _ _ => none
    openingLLM := fun _ => none
    closingLLM := fun _ => none
    moderationLLM := fun _ => none
    relevanceLLM := fun _ => none
    randIndex := fun _ _ => 0
    randFollowup := fun _ => false
    tts := fun _ _ => none }

/-- The Pro debater of the worked example in the specification. -/
def proDebater : Debater :=
  { id := "pro"
    name := "Pro Person"
    position :=
      { name := "Pro"
        stance := "Recess should be longer"
        key_beliefs := ["Play improves focus", "Students need breaks"] }
    personality := "energetic"
    argument_style := "practical examples"
    voice_id := 0
    avatar_emoji := "P" }

/-- The Con debater of the worked example in the specification. -/
def conDebater : Debater :=
  { id := "con"
    name := "Con Person"
    position :=
      { name := "Con"
        stance := "Recess is long enough"
        key_beliefs := ["Class time matters", "Structure helps learning"] }
    personality := "measured"
    argument_style := "statistics"
    voice_id := 1
    avatar_emoji := "C" }

/-- The worked example configuration of the specification: two debaters,
one round, rebuttals disabled, moderate strictness. -/
def exampleConfig : DebateConfig :=
  { topic := "Should recess be longer?"
    description := none
    debaters := [proDebater, conDebater]
    max_rounds := 1
    turn_time_seconds := 60
    allow_rebuttals := false
    moderator_strictness := .moderate }

/-- Helper to build a minimal debater for concrete instances. -/
def mkDebater (i : String) (n : String) : Debater :=
  { id := i
    name := n
    position := { name := n ++ " view", stance := n ++ " stance", key_beliefs := [] }
    personality := "analytical and articulate"
    argument_style := "uses evidence and logical reasoning"
    voice_id := 0
    avatar_emoji := "G" }

/-- A three-debater configuration [A, B, C] for the rebuttal-order claim. -/
def configABC : DebateConfig :=
  { topic := "t"
    description := none
    debaters := [mkDebater "a" "A", mkDebater "b" "B", mkDebater "c" "C"]
    max_rounds := 1
    turn_time_seconds := 60
    allow_rebuttals := true
    moderator_strictness := .moderate }

/-- A relevance result marked relevant with score 0.6. -/
def relevantPointSix : TopicRelevanceCheck :=
  { is_relevant := true
    relevance_score := 0.6
    off_topic_elements := []
    suggested_redirect := none }

/-- A relevance result marked relevant with score 0.4. -/
def relevantPointFour : TopicRelevanceCheck :=
  { is_relevant := true
    relevance_score := 0.4
    off_topic_elements := []
    suggested_redirect := none }

/-- A concrete argument for fail-open relevance instances. -/
def sampleArgument : DebateArgument :=
  { main_claim := "claim"
    supporting_points := []
    rebuttal_to := none
    rhetorical_strategy := "logical"
    confidence_level := 0.8 }

/-!  Theorems. -/

/-- The fan-out loop of _notify invokes every listener independently:
the outcome list pairs each listener, in registration order, with the
error logged for its invocation (none when it succeeded). -/
theorem notifyAll_eq_map {α : Type}
    (invoke : α → DebateEvent → Except String Unit) (event : DebateEvent)
    (ls : List α) :
    notifyAll invoke event ls = ls.map (fun l => (l, errOf (invoke l event))) := by
  induction ls with
  | nil => rfl
  | cons l rest ih =>
    simp only [notifyAll, List.map_cons, ih]
    cases h : invoke l event <;> simp [errOf, h]

/-- Mapping each element to itself paired with a computed outcome and
projecting the first components returns the original list. -/
theorem map_fst_pair {α β : Type} (g : α → β) (ls : List α) :
    (ls.map (fun l => (l, g l))).map Prod.fst = ls := by
  induction ls with
  | nil => rfl
  | cons l rest ih => simp [ih]

/-- C1: the claim says that when every generator collaborator call
raises, run_debate still records a fallback-derived turn for every
debater turn, emits debate_ended and lets no exception escape.  On the
code, with the always-failing oracle and the two-debater example
configuration, run_debate does finish and emit debate_ended with no
escaping exception, but it records zero turns: the very first speaker
introduction constructs a ModeratorAction with action_type
"introduce_speaker", which the pydantic Literal rejects, so the phase
sequence aborts into the debate_error path before any turn is created. -/
theorem c1_all_generators_fail_run :
    (runDebate failingOracle exampleConfig).turns = [] ∧
    DebateEvent.debate_error (actionTypeError "introduce_speaker")
      ∈ (runDebate failingOracle exampleConfig).events ∧
    (runDebate failingOracle exampleConfig).events.getLast?
      = some (DebateEvent.debate_ended 0 0) :=
  ⟨rfl, by decide, by decide⟩

/-- C2: the claim says a completed run of the example configuration (two
debaters, one round, rebuttals disabled) leaves a history of length 6,
with the moderator introduction broadcast but not recorded.  On the code
the run broadcasts the moderator introduction and then aborts at the
first speaker introduction (invalid action_type "introduce_speaker"), so
the final history length is 0, not 6. -/
theorem c2_example_history_length_run :
    (runDebate failingOracle exampleConfig).events.any (fun e =>
      match e with
      | DebateEvent.moderator_action ModActionType.introduce _ _ _ _ => true
      | _ => false) = true ∧
    (runDebate failingOracle exampleConfig).turns.length = 0 ∧
    ¬ (runDebate failingOracle exampleConfig).turns.length = 6 := by
  refine ⟨by decide, rfl, by decide⟩

/-- C5: the claim says the phase value moves along the full forward path
not_started, introduction, opening, debate, (rebuttals), closing,
conclusion, finished with no repeats.  On the code the recorded sequence
of phase assignments for the example run is not_started, introduction,
introduction, opening, finished: introduction is assigned twice (once in
run_debate, once in _introduction_phase), and the abort at the first
speaker introduction jumps from opening straight to finished, so debate,
closing and conclusion never occur. -/
theorem c5_phase_trace_run :
    (runDebate failingOracle exampleConfig).phaseTrace
      = ["not_started", "introduction", "introduction", "opening", "finished"] := by
  decide

/-- C3: the claim says the redirect fires exactly when the check marks
the turn off-topic or scores it below the strictness-dependent threshold
(0.3 relaxed, 0.5 moderate, 0.7 strict).  On the code the threshold is
hard-coded to 0.5 for every strictness: a relevant turn scored 0.6 under
strict strictness triggers no redirect although 0.6 is below 0.7, a
relevant turn scored 0.4 under relaxed strictness triggers a redirect
although 0.4 is above 0.3, and the decision coincides with the claimed
rule only at the moderate setting. -/
theorem c3_redirect_threshold_hardcoded :
    needsRedirect relevantPointSix = false ∧
    specRedirectRule .strict relevantPointSix = true ∧
    needsRedirect relevantPointFour = true ∧
    specRedirectRule .relaxed relevantPointFour = false ∧
    (∀ r : TopicRelevanceCheck, needsRedirect r = specRedirectRule .moderate r) := by
  refine ⟨?_, ?_, ?_, ?_, fun r => rfl⟩
  · simp [needsRedirect, relevantPointSix]
    norm_num
  · simp [specRedirectRule, relevantPointSix, strictnessThreshold]
    norm_num
  · simp [needsRedirect, relevantPointFour]
    norm_num
  · simp [specRedirectRule, relevantPointFour, strictnessThreshold]
    norm_num

/-- C4: in the rebuttal phase the speaking order is the reverse of the
configured order, and the speaker at reversed position i targets the
debater at original index length - i - 2, with no target when that index
is negative; for [A, B, C] the order is [C, B, A] and C targets B, B
targets A, A has no one. -/
theorem c4_rebuttal_order_and_targets (cfg : DebateConfig) (i : Nat) :
    (i + 2 ≤ cfg.debaters.length →
      rebuttalTarget cfg i
        = (cfg.debaters.get? (cfg.debaters.length - i - 2)).map
            (fun d => d.name)) ∧
    (cfg.debaters.length < i + 2 → rebuttalTarget cfg i = none) ∧
    rebuttalOrder configABC
      = [mkDebater "c" "C", mkDebater "b" "B", mkDebater "a" "A"] ∧
    rebuttalTarget configABC 0 = some "B" ∧
    rebuttalTarget configABC 1 = some "A" ∧
    rebuttalTarget configABC 2 = none := by
  refine ⟨?_, ?_, by decide, by decide, by decide, by decide⟩
  · intro h
    unfold rebuttalTarget
    have h0 : (0 : Int) ≤ (cfg.debaters.length : Int) - (i : Int) - 2 := by
      omega
    rw [if_pos h0]
    have ht : ((cfg.debaters.length : Int) - (i : Int) - 2).toNat
        = cfg.debaters.length - i - 2 := by
      omega
    rw [ht]
  · intro h
    unfold rebuttalTarget
    rw [if_neg]
    omega

/-- Witness for C4 at the concrete configuration [A, B, C], position 0. -/
theorem c4_rebuttal_order_and_targets_witness :
    0 + 2 ≤ configABC.debaters.length ∧
    rebuttalTarget configABC 0
      = (configABC.debaters.get? (configABC.debaters.length - 0 - 2)).map
          (fun d => d.name) :=
  ⟨by decide, (c4_rebuttal_order_and_targets configABC 0).1 (by decide)⟩

/-- C6: a notification invokes every registered listener in order with
the event, whether its handler succeeds or raises; a raise is captured
as that listener's logged outcome and stops nothing, and the fan-out
itself returns normally. -/
theorem c6_notify_fanout {α : Type}
    (invoke : α → DebateEvent → Except String Unit) (event : DebateEvent)
    (listeners : List α) :
    notifyAll invoke event listeners
      = listeners.map (fun l => (l, errOf (invoke l event))) ∧
    (notifyAll invoke event listeners).map Prod.fst = listeners := by
  refine ⟨notifyAll_eq_map invoke event listeners, ?_⟩
  rw [notifyAll_eq_map]
  exact map_fst_pair (fun l => errOf (invoke l event)) listeners

/-- C7 counterexample: the claim says any listener that was added and
then removed receives no later notification.  Register the same callback
twice, remove it once (list.remove drops only the first occurrence): a
later notification still invokes it. -/
theorem c7_removed_listener_cex :
    7 ∈ (notifyAll okInvoke (DebateEvent.phase_change "rebuttals")
      (removeListener (addListener (addListener ([] : List Nat) 7) 7) 7)).map
        Prod.fst := by
  decide

/-- C7 amended: for a callback registered at most once, removing it
guarantees it is invoked by no later notification, and every other
registered listener is still invoked with its own outcome. -/
theorem c7_remove_listener_amended {α : Type} [DecidableEq α]
    (listeners : List α) (c : α)
    (invoke : α → DebateEvent → Except String Unit) (event : DebateEvent)
    (h : listeners.count c ≤ 1) :
    c ∉ (notifyAll invoke event (removeListener listeners c)).map Prod.fst ∧
    ∀ l, l ∈ listeners → l ≠ c →
      (l, errOf (invoke l event))
        ∈ notifyAll invoke event (removeListener listeners c) := by
  have hmap : (notifyAll invoke event (removeListener listeners c)).map Prod.fst
      = removeListener listeners c := by
    rw [notifyAll_eq_map]
    exact map_fst_pair (fun l => errOf (invoke l event)) (removeListener listeners c)
  constructor
  · rw [hmap]
    unfold removeListener
    split_ifs with hc
    · have h1 : listeners.count c = 1 :=
        le_antisymm h (List.count_pos_iff.mpr hc)
      have h2 : (listeners.erase c).count c = 0 := by
        rw [List.count_erase_self, h1]
      exact List.count_eq_zero.mp h2
    · exact hc
  · intro l hl hne
    rw [notifyAll_eq_map]
    apply List.mem_map_of_mem
    unfold removeListener
    split_ifs with hc
    · exact (List.mem_erase_of_ne hne).mpr hl
    · exact hl

/-- Witness for C7 amended: registry [3, 4], remove 3, notify. -/
theorem c7_remove_listener_amended_witness :
    ([3, 4] : List Nat).count 3 ≤ 1 ∧
    (3 ∉ (notifyAll okInvoke (DebateEvent.phase_change "closing")
        (removeListener [3, 4] 3)).map Prod.fst ∧
      ∀ l, l ∈ ([3, 4] : List Nat) → l ≠ 3 →
        (l, errOf (okInvoke l (DebateEvent.phase_change "closing")))
          ∈ notifyAll okInvoke (DebateEvent.phase_change "closing")
              (removeListener [3, 4] 3)) :=
  ⟨by decide,
    c7_remove_listener_amended [3, 4] 3 okInvoke
      (DebateEvent.phase_change "closing") (by decide)⟩

/-- C8: when the relevance agent call raises, check_topic_relevance
returns the fail-open result: marked relevant, scored 0.8, which is at
or above every strictness threshold, and the engine's redirect test on
it is false, so no moderator redirect is triggered. -/
theorem c8_relevance_fail_open (o : Oracle) (argument : DebateArgument)
    (topic : String) (description : Option String) (s : Strictness)
    (h : o.relevanceLLM argument = none) :
    (check_topic_relevance o argument topic description s).is_relevant = true ∧
    strictnessThreshold s
      ≤ (check_topic_relevance o argument topic description s).relevance_score ∧
    needsRedirect (check_topic_relevance o argument topic description s)
      = false := by
  unfold check_topic_relevance
  rw [h]
  refine ⟨rfl, ?_, ?_⟩
  · cases s <;> norm_num [strictnessThreshold, relevanceFallback]
  · simp [needsRedirect, relevanceFallback]
    norm_num

/-- Witness for C8 with the always-failing oracle under strict
strictness. -/
theorem c8_relevance_fail_open_witness :
    failingOracle.relevanceLLM sampleArgument = none ∧
    ((check_topic_relevance failingOracle sampleArgument "t" none
        .strict).is_relevant = true ∧
      strictnessThreshold .strict
        ≤ (check_topic_relevance failingOracle sampleArgument "t" none
            .strict).relevance_score ∧
      needsRedirect (check_topic_relevance failingOracle sampleArgument "t"
        none .strict) = false) :=
  ⟨rfl, c8_relevance_fail_open failingOracle sampleArgument "t" none .strict rfl⟩

/-- C9 counterexample: the claim says construction fails when two
debaters share an id.  The pydantic model checks only the list length
bounds; a two-debater list with the duplicated id "d1" validates
successfully. -/
theorem c9_duplicate_ids_accepted :
    (mkDebater "d1" "X").id = (mkDebater "d1" "Y").id ∧
    exOk (DebateConfig.make "t" none [mkDebater "d1" "X", mkDebater "d1" "Y"]
      3 60 true .moderate) = true := by
  decide

/-- C9 amended: with the other bounded fields in range, constructing a
DebateConfig succeeds exactly when the debater list has 2 to 6 entries;
id uniqueness is not checked, so duplicate ids are accepted. -/
theorem c9_length_only_validation (topic : String)
    (description : Option String) (debaters : List Debater)
    (max_rounds turn_time_seconds : Nat) (allow_rebuttals : Bool)
    (s : Strictness)
    (h1 : 1 ≤ max_rounds) (h2 : max_rounds ≤ 10)
    (h3 : 15 ≤ turn_time_seconds) (h4 : turn_time_seconds ≤ 180) :
    exOk (DebateConfig.make topic description debaters max_rounds
        turn_time_seconds allow_rebuttals s) = true
      ↔ (2 ≤ debaters.length ∧ debaters.length ≤ 6) := by
  unfold DebateConfig.make
  split_ifs with g1 g2 g3 g4 g5 g6 <;> simp [exOk] <;> omega

/-- Witness for C9 amended at a concrete two-debater list. -/
theorem c9_length_only_validation_witness :
    1 ≤ 3 ∧ 3 ≤ 10 ∧ 15 ≤ 60 ∧ 60 ≤ 180 ∧
    (exOk (DebateConfig.make "t" none [mkDebater "a" "A", mkDebater "b" "B"]
        3 60 true .moderate) = true
      ↔ (2 ≤ ([mkDebater "a" "A", mkDebater "b" "B"] : List Debater).length
          ∧ ([mkDebater "a" "A", mkDebater "b" "B"] : List Debater).length ≤ 6)) :=
  ⟨by decide, by decide, by decide, by decide,
    c9_length_only_validation "t" none [mkDebater "a" "A", mkDebater "b" "B"]
      3 60 true .moderate (by decide) (by decide) (by decide) (by decide)⟩

/-- C10: constructing a ModeratorAction succeeds exactly when the
action_type string is one of introduce, transition, redirect, summarize,
conclude; the four action types the v2 engine uses for speaker
introductions, follow-ups, round intros and round summaries all lie
outside this set, and in particular _introduce_speaker always raises the
Literal validation error, whatever the debater, context, oracle and
state. -/
theorem c10_action_type_literal :
    (∀ (s msg : String) (addr : Option String) (warn : Bool)
        (rem : Option String),
      exOk (ModeratorAction.make s msg addr warn rem)
        = decide (s ∈ validActionTypes)) ∧
    ("introduce_speaker" ∉ validActionTypes ∧
      "followup" ∉ validActionTypes ∧
      "round_intro" ∉ validActionTypes ∧
      "round_summary" ∉ validActionTypes) ∧
    (∀ (o : Oracle) (d : Debater) (c : String) (st : EngSt),
      (((introduceSpeaker o d c).run).run st).fst
        = .error (actionTypeError "introduce_speaker")) := by
  refine ⟨?_, by decide, fun o d c st => rfl⟩
  intro s msg addr warn rem
  unfold ModeratorAction.make parseActionType
  split_ifs <;> simp_all [exOk, validActionTypes]

end DebateArena
